import Mathlib

/-!
Verification of the tone-slyder Tone Instruction Pipeline.

This file gives a shallow embedding of the core pipeline of the repository:
slider normalization, instruction bucketing, conflict resolution, prompt
assembly, guardrail verification, cache-key canonicalization, the response
cache, the usage metering service, and the rewrite request handler, and
proves or refutes the specified properties about them.

Modelling conventions:
- JavaScript numbers are modelled as `ℚ` (the dial values, weights and
  dollar costs in the source are small decimals for which float rounding is
  irrelevant to the stated properties); token counts as `ℕ`; millisecond
  timestamps as `ℤ`.
- JavaScript strings are Lean `String`s; `toLowerCase` is modelled
  per-character with `Char.toLower` and `trim` with `jsTrim` below
  (the JS whitespace class is slightly larger; the properties at issue
  do not depend on the difference).
- A JS object used as a map (`Record<string, number>`) is modelled as an
  association list in insertion order, matching `Object.entries` /
  `Object.keys` enumeration order for non-numeric keys.
-/

/-- Lowercase a string character by character, modelling
`String.prototype.toLowerCase` of the source (ASCII-faithful). -/
def jsToLower (s : String) : String :=
  ⟨s.data.map Char.toLower⟩

/-- Does the character list `s` start with the character list `pat`? -/
def startsWithList : List Char → List Char → Bool
  | _, [] => true
  | [], _ :: _ => false
  | c :: cs, p :: ps => c == p && startsWithList cs ps

/-- Does the character list `s` contain `pat` as a contiguous run? -/
def hasSubList (pat : List Char) : List Char → Bool
  | [] => startsWithList [] pat
  | c :: cs => startsWithList (c :: cs) pat || hasSubList pat cs

/-- Substring occurrence test on strings, used to state which blocks an
assembled prompt contains and to model a JS regex `test` of a literal
pattern (guardrail terms are treated as literal text, which is what the
source effectively does for terms without regex metacharacters). -/
def strHasSub (s pat : String) : Bool :=
  hasSubList pat.data s.data

/-- Count of non-overlapping left-to-right occurrences of `pat` in the
list, modelling `s.match(new RegExp(pat, 'g')).length` for a literal
pattern. The recursion skips past each match; the extra fuel argument
makes the definition structural (the fuel strictly dominates the list
length at every call, so with fuel `length + 1` the zero-fuel branch is
never reached). -/
def countOccFuel (pat : List Char) : Nat → List Char → Nat
  | 0, _ => 0
  | _ + 1, [] => if pat.isEmpty then 1 else 0
  | fuel + 1, c :: cs =>
    if startsWithList (c :: cs) pat then
      1 + countOccFuel pat fuel (cs.drop (pat.length - 1))
    else
      countOccFuel pat fuel cs

/-- Occurrence count on strings. -/
def countOcc (s pat : String) : Nat :=
  countOccFuel pat.data (s.data.length + 1) s.data

/-- Lexicographic comparison of character lists by code point, modelling
the default `Array.prototype.sort` string comparison. -/
def lexLeB : List Char → List Char → Bool
  | [], _ => true
  | _ :: _, [] => false
  | a :: as, b :: bs =>
    if a.toNat < b.toNat then true
    else if b.toNat < a.toNat then false
    else lexLeB as bs

/-- String comparison used when canonicalizing lists for the cache key. -/
def strLe (a b : String) : Prop :=
  lexLeB a.data b.data = true

instance : DecidableRel strLe := fun a b =>
  inferInstanceAs (Decidable (lexLeB a.data b.data = true))

theorem lexLeB_total (a b : List Char) : lexLeB a b = true ∨ lexLeB b a = true := by
  induction a generalizing b with
  | nil => exact Or.inl rfl
  | cons x xs ih =>
    cases b with
    | nil => exact Or.inr rfl
    | cons y ys =>
      by_cases hxy : x.toNat < y.toNat
      · left
        simp [lexLeB, hxy]
      · by_cases hyx : y.toNat < x.toNat
        · right
          simp [lexLeB, hyx]
        · have hx : x.toNat = y.toNat := by omega
          rcases ih ys with h | h
          · left
            simp [lexLeB, hxy, hyx, h]
          · right
            simp [lexLeB, hxy, hyx, hx, h]

theorem lexLeB_trans {a b c : List Char} (h1 : lexLeB a b = true)
    (h2 : lexLeB b c = true) : lexLeB a c = true := by
  induction a generalizing b c with
  | nil => rfl
  | cons x xs ih =>
    cases b with
    | nil => simp [lexLeB] at h1
    | cons y ys =>
      cases c with
      | nil => simp [lexLeB] at h2
      | cons z zs =>
        simp only [lexLeB] at h1 h2 ⊢
        have hxy : x.toNat ≤ y.toNat := by
          by_contra h
          simp [show ¬ x.toNat < y.toNat by omega, show y.toNat < x.toNat by omega] at h1
        have hyz : y.toNat ≤ z.toNat := by
          by_contra h
          simp [show ¬ y.toNat < z.toNat by omega, show z.toNat < y.toNat by omega] at h2
        by_cases hxz : x.toNat < z.toNat
        · simp [hxz]
        · have hxeq : x.toNat = y.toNat := by omega
          have hyeq : y.toNat = z.toNat := by omega
          simp [show ¬ x.toNat < y.toNat by omega, show ¬ y.toNat < x.toNat by omega] at h1
          simp [show ¬ y.toNat < z.toNat by omega, show ¬ z.toNat < y.toNat by omega] at h2
          simp [hxz, show ¬ z.toNat < x.toNat by omega]
          exact ih h1 h2

theorem lexLeB_antisymm {a b : List Char} (h1 : lexLeB a b = true)
    (h2 : lexLeB b a = true) : a = b := by
  induction a generalizing b with
  | nil =>
    cases b with
    | nil => rfl
    | cons y ys => simp [lexLeB] at h2
  | cons x xs ih =>
    cases b with
    | nil => simp [lexLeB] at h1
    | cons y ys =>
      simp only [lexLeB] at h1 h2
      by_cases hxy : x.toNat < y.toNat
      · simp [hxy] at h2
        omega
      · by_cases hyx : y.toNat < x.toNat
        · simp [hxy, hyx] at h1
        · have hx : x.toNat = y.toNat := by omega
          have hc : x = y := Char.ext (UInt32.toNat.inj hx)
          simp [hxy, hyx] at h1 h2
          rw [hc, ih h1 h2]

instance : IsTotal String strLe :=
  ⟨fun a b => lexLeB_total a.data b.data⟩

instance : IsTrans String strLe :=
  ⟨fun _ _ _ h1 h2 => lexLeB_trans h1 h2⟩

instance : IsAntisymm String strLe :=
  ⟨fun a b h1 h2 => by
    cases a
    cases b
    exact congrArg String.mk (lexLeB_antisymm h1 h2)⟩

/-- `String.prototype.trim` modelled on the character list: drop leading
and trailing whitespace. -/
def jsTrim (s : String) : String :=
  ⟨((s.data.dropWhile Char.isWhitespace).reverse.dropWhile Char.isWhitespace).reverse⟩

/-- `Math.abs` on rationals. -/
def mathAbs (q : ℚ) : ℚ :=
  if q < 0 then -q else q

theorem mathAbs_eq_abs (q : ℚ) : mathAbs q = |q| := by
  unfold mathAbs
  rcases lt_or_le q 0 with h | h
  · rw [if_pos h, abs_of_neg h]
  · rw [if_neg (not_lt.mpr h), abs_of_nonneg h]

/-- `normalizeSliderValue` from the rewrite engine: clamp the dial value to
`[10, 90]`, then map onto the bipolar scale `(clamped - 50) / 40`. -/
def normalizeSliderValue (sliderValue : ℚ) : ℚ :=
  let clampedValue := max 10 (min 90 sliderValue)
  (clampedValue - 50) / 40

/-- `mapWeightToInstruction` from the rewrite engine: bucket a signed
weight into a qualitative instruction string. -/
def mapWeightToInstruction (weight : ℚ) : String :=
  let absWeight := mathAbs weight
  if absWeight ≤ 0.2 then "moderate"
  else if absWeight ≤ 0.5 then (if weight < 0 then "low" else "high")
  else (if weight < 0 then "very low" else "very high")

/-- Shared type `SliderWeight`: one dimension with its normalized weight
and bucketed instruction. -/
structure SliderWeight where
  dimension : String
  weight : ℚ
  instruction : String
deriving DecidableEq

/-- Shared type `ConflictResolution`: primary and secondary instruction
sequences. -/
structure ConflictResolution where
  primary : List SliderWeight
  secondary : List SliderWeight
deriving DecidableEq

/-- Descending-by-absolute-weight comparison used by the conflict
resolver's sort. -/
def byAbsWeightDesc (a b : SliderWeight) : Prop :=
  mathAbs b.weight ≤ mathAbs a.weight

instance : DecidableRel byAbsWeightDesc := fun a b =>
  inferInstanceAs (Decidable (mathAbs b.weight ≤ mathAbs a.weight))

instance : IsTotal SliderWeight byAbsWeightDesc :=
  ⟨fun a b => le_total (mathAbs b.weight) (mathAbs a.weight)⟩

instance : IsTrans SliderWeight byAbsWeightDesc :=
  ⟨fun _ _ _ h1 h2 => le_trans h2 h1⟩

/-- `resolveSliderConflicts` from the rewrite engine: normalize each
dimension, bucket it, drop near-neutral weights (`|w| ≤ 0.1`), stable-sort
the rest descending by absolute weight (`Array.prototype.sort` with the
comparator `|b.weight| - |a.weight|` is a stable descending sort, which
`List.insertionSort` with `byAbsWeightDesc` reproduces exactly, ties kept
in original order), then split into the top 3 primary and the remaining
secondary entries. This first definition is the map-and-filter stage
producing the weight entries. -/
def sliderWeightsOf (sliderValues : List (String × ℚ)) : List SliderWeight :=
  (sliderValues.map (fun p =>
      let weight := normalizeSliderValue p.2
      let instruction := mapWeightToInstruction weight
      SliderWeight.mk p.1 weight instruction)).filter
    (fun w => decide ((0.1 : ℚ) < mathAbs w.weight))

/-- The split stage of `resolveSliderConflicts`: sort the filtered weights
and slice into primary (first 3) and secondary (rest). -/
def resolveSliderConflicts (sliderValues : List (String × ℚ)) : ConflictResolution :=
  let sorted := List.insertionSort byAbsWeightDesc (sliderWeightsOf sliderValues)
  { primary := sorted.take 3
    secondary := sorted.drop 3 }

/-- Shared type `Guardrails`: required and banned term lists. -/
structure Guardrails where
  required : List String
  banned : List String
deriving DecidableEq

/-- Shared type `RewriteRequest`. The slider map is kept in insertion
order, as `Object.entries` would enumerate it. -/
structure RewriteRequest where
  originalText : String
  sliderValues : List (String × ℚ)
  guardrails : Guardrails
  model : Option String
  userId : Option String
deriving DecidableEq

/-- `generatePrompt` from the rewrite engine: the deterministic prompt
template. Each `prompt +=` of the source is one concatenation below. -/
def generatePrompt (originalText : String) (conflicts : ConflictResolution)
    (guardrails : Guardrails) : String :=
  let p0 := "You are an expert writing assistant specializing in tone adjustment. " ++
    "Your task is to rewrite the provided text according to the specified tone instructions while maintaining the original meaning and intent.\n\n"
  let p1 :=
    if conflicts.primary.length > 0 then
      "PRIMARY TONE INSTRUCTIONS (highest priority):\n" ++
        String.join (conflicts.primary.map
          (fun w => "- " ++ w.dimension ++ ": " ++ w.instruction ++ "\n")) ++ "\n"
    else ""
  let p2 :=
    if conflicts.secondary.length > 0 then
      "SECONDARY TONE ADJUSTMENTS (apply if compatible with primary):\n" ++
        String.join (conflicts.secondary.map
          (fun w => "- " ++ w.dimension ++ ": " ++ w.instruction ++ "\n")) ++ "\n"
    else ""
  let p3 :=
    if guardrails.required.length > 0 then
      "REQUIRED WORDS/PHRASES (must remain unchanged):\n" ++
        String.intercalate "\n" (guardrails.required.map (fun word => "- \"" ++ word ++ "\"")) ++
        "\n\n"
    else ""
  let p4 :=
    if guardrails.banned.length > 0 then
      "BANNED WORDS/PHRASES (must not appear in output):\n" ++
        String.intercalate "\n" (guardrails.banned.map (fun word => "- \"" ++ word ++ "\"")) ++
        "\n\n"
    else ""
  let p5 := "REWRITING GUIDELINES:\n" ++
    "- Maintain the original meaning and factual content\n" ++
    "- Apply tone changes naturally and coherently\n" ++
    "- If instructions conflict, prioritize PRIMARY over SECONDARY\n" ++
    "- Ensure guardrails are strictly followed\n" ++
    "- Return only the rewritten text, no explanations\n\n"
  let p6 := "ORIGINAL TEXT TO REWRITE:\n" ++ "\"" ++ originalText ++ "\"\n\n"
  p0 ++ p1 ++ p2 ++ p3 ++ p4 ++ p5 ++ p6 ++ "REWRITTEN TEXT:"

/-- `validateGuardrails` from the rewrite engine: required terms present in
the original but absent from the rewrite, and banned terms present in the
rewrite, each produce one violation message. Terms are matched
case-insensitively as literal text (the source builds a regex from the
term; for terms without metacharacters this is literal matching). -/
def validateGuardrails (originalText rewrittenText : String)
    (guardrails : Guardrails) : List String :=
  let requiredViolations := guardrails.required.filterMap (fun requiredWord =>
    let originalCount := countOcc (jsToLower originalText) (jsToLower requiredWord)
    let rewrittenCount := countOcc (jsToLower rewrittenText) (jsToLower requiredWord)
    if originalCount > 0 ∧ rewrittenCount = 0 then
      some ("Required word/phrase \"" ++ requiredWord ++ "\" was removed")
    else none)
  let bannedViolations := guardrails.banned.filterMap (fun bannedWord =>
    if strHasSub (jsToLower rewrittenText) (jsToLower bannedWord) then
      some ("Banned word/phrase \"" ++ bannedWord ++ "\" appears in output")
    else none)
  requiredViolations ++ bannedViolations

/-- The canonical key object built by `generateCacheKey` before
serialization. The source serializes this structure with `JSON.stringify`
and encodes it in base64; that composition is injective on these objects,
so key equality coincides with equality of the canonical object, which is
what this embedding uses as the key. -/
structure CacheKeyObject where
  text : String
  sliders : List (String × Option ℚ)
  required : List String
  banned : List String
  model : String
deriving DecidableEq

/-- Sorting of strings, modelling `Array.prototype.sort`'s default
lexicographic comparison. -/
def sortStrings (l : List String) : List String :=
  List.insertionSort strLe l

/-- `sliderValues[key]` lookup of the source. -/
def lookupVal (l : List (String × ℚ)) (k : String) : Option ℚ :=
  (l.find? (fun p => p.1 == k)).map (fun p => p.2)

/-- `generateCacheKey` from the rewrite engine: trim and lowercase the
text, sort the slider keys and pair each with its value, sort each
guardrail list (duplicates are kept: the source copies and sorts, it does
not deduplicate), default the model to gpt-3.5-turbo. -/
def generateCacheKey (request : RewriteRequest) : CacheKeyObject :=
  { text := jsToLower (jsTrim request.originalText)
    sliders := (sortStrings (request.sliderValues.map (fun p => p.1))).map
      (fun k => (k, lookupVal request.sliderValues k))
    required := sortStrings request.guardrails.required
    banned := sortStrings request.guardrails.banned
    model := request.model.getD "gpt-3.5-turbo" }

example : normalizeSliderValue 80 = 3/4 := by norm_num [normalizeSliderValue]
example : mapWeightToInstruction (3/4) = "very high" := by
  norm_num [mapWeightToInstruction, mathAbs]
example : mapWeightToInstruction (-1/2) = "low" := by
  norm_num [mapWeightToInstruction, mathAbs]
example :
    resolveSliderConflicts
      [("formality", 80), ("conversational", 30), ("informativeness", 50),
       ("authoritativeness", 85)] =
    { primary := [⟨"authoritativeness", 7/8, "very high"⟩, ⟨"formality", 3/4, "very high"⟩,
                  ⟨"conversational", -1/2, "low"⟩]
      secondary := [] } := by
  norm_num [resolveSliderConflicts, sliderWeightsOf, normalizeSliderValue,
    mapWeightToInstruction, mathAbs, byAbsWeightDesc, List.insertionSort, List.orderedInsert]

example : strHasSub "hello world" "lo wo" = true := by decide
example : strHasSub "hello world" "xyz" = false := by decide
example : sortStrings ["b", "a", "c"] = ["a", "b", "c"] := by decide
example : jsToLower "  HeLLo " = "  hello " := by decide
example : jsTrim "  HeLLo " = "HeLLo" := by decide
example : countOcc "the update and the end" "the" = 2 := by decide
example :
    validateGuardrails "keep the update" "no u-word here" ⟨["update"], []⟩ =
      ["Required word/phrase \"update\" was removed"] := by decide

/-- `RewriteResponse` returned to callers (shared types). -/
structure RewriteResponse where
  rewrittenText : String
  originalText : String
  model : String
  processingTime : ℤ
  tokensUsed : ℕ
  guardrailViolations : Option (List String)
deriving DecidableEq

/-- A `CacheEntry` of `cacheService`: cached data plus an absolute expiry
timestamp in milliseconds. -/
structure CacheEntry (α : Type) where
  data : α
  expiry : ℤ
deriving DecidableEq

/-- The cache map of `CacheService`, keyed by the opaque cache key. -/
def CacheStore (α : Type) :=
  String → Option (CacheEntry α)

/-- `CacheService.set`: store the value with expiry
`Date.now() + ttlSeconds * 1000`. -/
def cacheSet {α : Type} (store : CacheStore α) (now : ℤ) (key : String)
    (data : α) (ttlSeconds : ℤ) : CacheStore α :=
  fun k => if k = key then some ⟨data, now + ttlSeconds * 1000⟩ else store k

/-- `CacheService.get`: absent keys return `none`; an entry whose expiry
lies strictly in the past is deleted lazily and `none` is returned;
otherwise the stored data is returned. The pair is (returned value,
store after the call). -/
def cacheGet {α : Type} (store : CacheStore α) (now : ℤ) (key : String) :
    Option α × CacheStore α :=
  match store key with
  | none => (none, store)
  | some entry =>
    if now > entry.expiry then
      (none, fun k => if k = key then none else store k)
    else
      (some entry.data, store)

/-- The empty cache. -/
def emptyCache (α : Type) : CacheStore α :=
  fun _ => none

/-- Subscription tiers of `meteringService`. -/
inductive Tier
  | free
  | premium
  | enterprise
deriving DecidableEq

/-- `TierLimits` of `meteringService`. -/
structure TierLimits where
  monthlyRewrites : ℕ
  monthlyBudgetUSD : ℚ
  modelAccess : List String
  rateLimitPerHour : ℕ
deriving DecidableEq

/-- `UserUsage` of `meteringService`: one record per (user, month). -/
structure UserUsage where
  userId : String
  monthYear : String
  rewritesCount : ℕ
  tokensUsed : ℕ
  costUSD : ℚ
  tier : Tier
deriving DecidableEq

/-- `ModelPricing` of `meteringService`: cost per 1K input/output tokens. -/
structure ModelPricing where
  inputTokenCost : ℚ
  outputTokenCost : ℚ
  tier : Tier
deriving DecidableEq

/-- The static `TIER_LIMITS` table of `meteringService`. -/
def TIER_LIMITS : Tier → TierLimits
  | .free =>
    { monthlyRewrites := 100
      monthlyBudgetUSD := 5
      modelAccess := ["gpt-3.5-turbo"]
      rateLimitPerHour := 30 }
  | .premium =>
    { monthlyRewrites := 1000
      monthlyBudgetUSD := 50
      modelAccess := ["gpt-3.5-turbo", "gpt-4", "claude-3-haiku", "claude-3-sonnet"]
      rateLimitPerHour := 300 }
  | .enterprise =>
    { monthlyRewrites := 10000
      monthlyBudgetUSD := 500
      modelAccess := ["gpt-3.5-turbo", "gpt-4", "claude-3-haiku", "claude-3-sonnet", "gpt-4-turbo"]
      rateLimitPerHour := 1000 }

/-- The static `MODEL_PRICING` table of `meteringService`. Models absent
from this table (such as gpt-4-turbo) yield `none`, as does
`MODEL_PRICING[model]` being `undefined` in the source. -/
def MODEL_PRICING : String → Option ModelPricing
  | "gpt-3.5-turbo" => some { inputTokenCost := 0.0015, outputTokenCost := 0.002, tier := .free }
  | "gpt-4" => some { inputTokenCost := 0.03, outputTokenCost := 0.06, tier := .premium }
  | "claude-3-haiku" =>
    some { inputTokenCost := 0.00025, outputTokenCost := 0.00125, tier := .premium }
  | "claude-3-sonnet" =>
    some { inputTokenCost := 0.003, outputTokenCost := 0.015, tier := .premium }
  | _ => none

/-- `Math.round`: round half toward positive infinity. -/
def mathRound (q : ℚ) : ℤ :=
  ⌊q + 1/2⌋

/-- `estimateRequestCost` of `meteringService`: an unpriced model costs 0;
otherwise split the estimated tokens 60% input / 40% output and price each
side per 1K tokens. -/
def estimateRequestCost (model : String) (estimatedTokens : ℚ) : ℚ :=
  match MODEL_PRICING model with
  | none => 0
  | some pricing =>
    let inputTokens : ℚ := mathRound (estimatedTokens * 0.6)
    let outputTokens : ℚ := mathRound (estimatedTokens * 0.4)
    inputTokens / 1000 * pricing.inputTokenCost + outputTokens / 1000 * pricing.outputTokenCost

/-- JS truthiness of an optional token count: `undefined` and `0` are
falsy. -/
def jsTruthyNat : Option ℕ → Bool
  | none => false
  | some n => n ≠ 0

/-- `calculateCost` of `meteringService`: exact input/output split when
both counts are supplied (and truthy), otherwise the 60/40 estimate;
unpriced models cost 0. -/
def calculateCost (model : String) (totalTokens : ℕ)
    (inputTokens outputTokens : Option ℕ) : ℚ :=
  match MODEL_PRICING model with
  | none => 0
  | some pricing =>
    if jsTruthyNat inputTokens && jsTruthyNat outputTokens then
      (inputTokens.getD 0 : ℚ) / 1000 * pricing.inputTokenCost +
        (outputTokens.getD 0 : ℚ) / 1000 * pricing.outputTokenCost
    else
      let estimatedInput : ℚ := mathRound ((totalTokens : ℚ) * 0.6)
      let estimatedOutput : ℚ := mathRound ((totalTokens : ℚ) * 0.4)
      estimatedInput / 1000 * pricing.inputTokenCost +
        estimatedOutput / 1000 * pricing.outputTokenCost

/-- The reason attached to a quota denial, standing for the human-readable
message the source builds at the corresponding deny site. -/
inductive QuotaDenyReason
  | modelAccess
  | rewriteLimit
  | budgetLimit
  | budgetEstimate
deriving DecidableEq

/-- The object returned by `checkQuota` (the `usage` and `limits` echo
fields are omitted; they are reads of the inputs). -/
structure QuotaCheckResult where
  canProceed : Bool
  reason : Option QuotaDenyReason
deriving DecidableEq

/-- `checkQuota` of `meteringService` on the current month's usage record:
deny in order on model access, monthly rewrite cap, accumulated cost at or
over budget, and estimated cost (at the fixed 2000-token assumption)
pushing accumulated cost over budget. -/
def checkQuota (model : String) (usage : UserUsage) : QuotaCheckResult :=
  let limits := TIER_LIMITS usage.tier
  if ¬ (model ∈ limits.modelAccess) then
    { canProceed := false, reason := some .modelAccess }
  else if usage.rewritesCount ≥ limits.monthlyRewrites then
    { canProceed := false, reason := some .rewriteLimit }
  else if usage.costUSD ≥ limits.monthlyBudgetUSD then
    { canProceed := false, reason := some .budgetLimit }
  else if usage.costUSD + estimateRequestCost model 2000 > limits.monthlyBudgetUSD then
    { canProceed := false, reason := some .budgetEstimate }
  else
    { canProceed := true, reason := none }

/-- `recordUsage` of `meteringService`, acting on the month's usage
record: increment the rewrite count, add the tokens, and add the
calculated cost. -/
def recordUsage (model : String) (tokensUsed : ℕ)
    (inputTokens outputTokens : Option ℕ) (usage : UserUsage) : UserUsage :=
  let cost := calculateCost model tokensUsed inputTokens outputTokens
  { usage with
    rewritesCount := usage.rewritesCount + 1
    tokensUsed := usage.tokensUsed + tokensUsed
    costUSD := usage.costUSD + cost }

/-- Response of `llmService.rewrite`: text plus total token usage. -/
structure LLMResponse where
  text : String
  tokensUsed : ℕ
deriving DecidableEq

/-- The environment one run of the rewrite handler executes against: the
cache lookup result for this request's key, the user's current-month usage
record read by `checkQuota`, the provider responses for the first and (if
reached) second attempt, and the elapsed wall time `Date.now() - startTime`
observed when the response is built. -/
structure PipelineEnv where
  cached : Option RewriteResponse
  usage : UserUsage
  llm1 : LLMResponse
  llm2 : LLMResponse
  elapsed : ℤ
deriving DecidableEq

/-- What the handler sends back: a success body or the 429 quota
rejection. -/
inductive PipelineOutcome
  | success (data : RewriteResponse)
  | quotaRejected
deriving DecidableEq

/-- Observable effects of one handler run: the outcome, whether
`checkQuota` was called, how many provider calls ran, the
`(model, tokensUsed)` arguments of each `recordUsage` call, and the
`(key, data, ttl)` arguments of each `cacheService.set` call. -/
structure PipelineTrace where
  outcome : PipelineOutcome
  quotaChecked : Bool
  providerCalls : ℕ
  usageRecorded : List (String × ℕ)
  cacheWrites : List (CacheKeyObject × RewriteResponse × ℤ)
deriving DecidableEq

/-- JS truthiness of the object returned by `checkQuota`. The route does
`const canProceed = await meteringService.checkQuota(...)` and then tests
`if (!canProceed)`: `canProceed` is the whole result object, and an object
is always truthy in JavaScript, so the test is false regardless of the
object's `canProceed` field. -/
def quotaResultObjectTruthy (_ : QuotaCheckResult) : Bool :=
  true

/-- `requestData.model || 'gpt-3.5-turbo'` of the route. -/
def modelOrDefault (req : RewriteRequest) : String :=
  req.model.getD "gpt-3.5-turbo"

/-- The POST /api/rewrite handler of `rewrite.ts`, transcribed step by
step: resolve conflicts and build the prompt and cache key; on a cache hit
return the stored result with this request's elapsed time substituted; on
a miss run `checkQuota` (whose result object is tested for JS truthiness,
see `quotaResultObjectTruthy`), call the provider, validate guardrails,
retry once on violations keeping the retry text only if it strictly
reduces the violation count, record usage with the FIRST response's token
count, and cache the response under a 600-second TTL. -/
def handleRewrite (req : RewriteRequest) (env : PipelineEnv) : PipelineTrace :=
  let conflicts := resolveSliderConflicts req.sliderValues
  let _prompt := generatePrompt req.originalText conflicts req.guardrails
  let cacheKey := generateCacheKey req
  match env.cached with
  | some cachedResult =>
    { outcome := .success { cachedResult with processingTime := env.elapsed }
      quotaChecked := false
      providerCalls := 0
      usageRecorded := []
      cacheWrites := [] }
  | none =>
    let canProceed := checkQuota (modelOrDefault req) env.usage
    if quotaResultObjectTruthy canProceed = false then
      { outcome := .quotaRejected
        quotaChecked := true
        providerCalls := 0
        usageRecorded := []
        cacheWrites := [] }
    else
      let llmResponse := env.llm1
      let violations := validateGuardrails req.originalText llmResponse.text req.guardrails
      let retried := violations.length > 0
      let finalText :=
        if retried then
          let retryResponse := env.llm2
          let retryViolations :=
            validateGuardrails req.originalText retryResponse.text req.guardrails
          if retryViolations.length < violations.length then retryResponse.text
          else llmResponse.text
        else llmResponse.text
      let responseData : RewriteResponse :=
        { rewrittenText := finalText
          originalText := req.originalText
          model := modelOrDefault req
          processingTime := env.elapsed
          tokensUsed := llmResponse.tokensUsed
          guardrailViolations := if violations.length > 0 then some violations else none }
      { outcome := .success responseData
        quotaChecked := true
        providerCalls := if retried then 2 else 1
        usageRecorded := [(modelOrDefault req, llmResponse.tokensUsed)]
        cacheWrites := [(cacheKey, responseData, 600)] }

/-- C7: for dial values in `[10, 90]`, `normalizeSliderValue` is monotone
non-decreasing, with `normalize 10 = -1`, `normalize 50 = 0`,
`normalize 90 = 1`; out-of-range inputs are clamped into `[10, 90]` first
(normalization of `v` equals normalization of the clamped value), so every
result lies in `[-1, 1]`. -/
theorem C7_normalize_monotone_and_bounds :
    (∀ v w : ℚ, v ≤ w → normalizeSliderValue v ≤ normalizeSliderValue w) ∧
    normalizeSliderValue 10 = -1 ∧
    normalizeSliderValue 50 = 0 ∧
    normalizeSliderValue 90 = 1 ∧
    (∀ v : ℚ, normalizeSliderValue v = normalizeSliderValue (max 10 (min 90 v)) ∧
      10 ≤ max 10 (min 90 v) ∧ max 10 (min 90 v) ≤ 90) ∧
    (∀ v : ℚ, -1 ≤ normalizeSliderValue v ∧ normalizeSliderValue v ≤ 1) := by
  have hclamp_lo : ∀ v : ℚ, 10 ≤ max 10 (min 90 v) := fun v => le_max_left _ _
  have hclamp_hi : ∀ v : ℚ, max 10 (min 90 v) ≤ 90 := fun v =>
    max_le (by norm_num) (min_le_left _ _)
  refine ⟨?_, by norm_num [normalizeSliderValue], by norm_num [normalizeSliderValue],
    by norm_num [normalizeSliderValue], ?_, ?_⟩
  · intro v w h
    unfold normalizeSliderValue
    have hm : max 10 (min 90 v) ≤ max 10 (min 90 w) :=
      max_le_max le_rfl (min_le_min le_rfl h)
    have h40 : (0 : ℚ) ≤ 40 := by norm_num
    exact div_le_div_of_nonneg_right (by linarith) h40
  · intro v
    refine ⟨?_, hclamp_lo v, hclamp_hi v⟩
    unfold normalizeSliderValue
    have h1 : min 90 (max 10 (min 90 v)) = max 10 (min 90 v) :=
      min_eq_right (hclamp_hi v)
    have h2 : max 10 (max 10 (min 90 v)) = max 10 (min 90 v) :=
      max_eq_right (hclamp_lo v)
    rw [h1, h2]
  · intro v
    unfold normalizeSliderValue
    constructor
    · rw [le_div_iff₀ (by norm_num : (0:ℚ) < 40)]
      have := hclamp_lo v
      linarith
    · rw [div_le_one (by norm_num : (0:ℚ) < 40)]
      have := hclamp_hi v
      linarith

/-- Restatement of the bucketing function through `|·|`, for use in the
threshold analysis. -/
theorem mapWeightToInstruction_eq (w : ℚ) :
    mapWeightToInstruction w =
      if |w| ≤ 0.2 then "moderate"
      else if |w| ≤ 0.5 then (if w < 0 then "low" else "high")
      else (if w < 0 then "very low" else "very high") := by
  simp only [mapWeightToInstruction, mathAbs_eq_abs]

/-- C6: bucket thresholds on `|w|`: at most 0.2 gives moderate; above 0.2
up to 0.5 gives low (negative) or high (positive); above 0.5 gives very
low or very high by sign; the boundary values 0.2 and 0.5 map to the
lower-magnitude bucket. -/
theorem C6_bucket_thresholds :
    (∀ w : ℚ, |w| ≤ 0.2 → mapWeightToInstruction w = "moderate") ∧
    (∀ w : ℚ, 0.2 < |w| → |w| ≤ 0.5 → w < 0 → mapWeightToInstruction w = "low") ∧
    (∀ w : ℚ, 0.2 < |w| → |w| ≤ 0.5 → 0 < w → mapWeightToInstruction w = "high") ∧
    (∀ w : ℚ, 0.5 < |w| → w < 0 → mapWeightToInstruction w = "very low") ∧
    (∀ w : ℚ, 0.5 < |w| → 0 < w → mapWeightToInstruction w = "very high") ∧
    mapWeightToInstruction 0.2 = "moderate" ∧
    mapWeightToInstruction (-0.2) = "moderate" ∧
    mapWeightToInstruction 0.5 = "high" ∧
    mapWeightToInstruction (-0.5) = "low" := by
  refine ⟨?_, ?_, ?_, ?_, ?_, ?_, ?_, ?_, ?_⟩
  · intro w h
    rw [mapWeightToInstruction_eq, if_pos h]
  · intro w h1 h2 h3
    rw [mapWeightToInstruction_eq, if_neg (by linarith), if_pos h2, if_pos h3]
  · intro w h1 h2 h3
    rw [mapWeightToInstruction_eq, if_neg (by linarith), if_pos h2, if_neg (by linarith)]
  · intro w h1 h2
    rw [mapWeightToInstruction_eq, if_neg (by linarith), if_neg (by linarith), if_pos h2]
  · intro w h1 h2
    rw [mapWeightToInstruction_eq, if_neg (by linarith), if_neg (by linarith),
      if_neg (by linarith)]
  · rw [mapWeightToInstruction_eq, abs_of_pos (show (0:ℚ) < 0.2 by norm_num)]
    norm_num
  · rw [mapWeightToInstruction_eq, abs_of_neg (show (-0.2:ℚ) < 0 by norm_num)]
    norm_num
  · rw [mapWeightToInstruction_eq, abs_of_pos (show (0:ℚ) < 0.5 by norm_num)]
    norm_num
  · rw [mapWeightToInstruction_eq, abs_of_neg (show (-0.5:ℚ) < 0 by norm_num)]
    norm_num

/-- C5: conflict resolution returns at most 3 primary entries; every
primary entry's absolute weight is at least every secondary entry's; and
no returned entry, primary or secondary, has absolute weight at or below
0.1. -/
theorem C5_resolve_primary_cap_and_ordering (sv : List (String × ℚ)) :
    (resolveSliderConflicts sv).primary.length ≤ 3 ∧
    (∀ p ∈ (resolveSliderConflicts sv).primary,
      ∀ s ∈ (resolveSliderConflicts sv).secondary, |s.weight| ≤ |p.weight|) ∧
    (∀ w : SliderWeight,
      w ∈ (resolveSliderConflicts sv).primary ∨ w ∈ (resolveSliderConflicts sv).secondary →
      0.1 < |w.weight|) := by
  simp only [resolveSliderConflicts]
  have hsort : List.Sorted byAbsWeightDesc
      (List.insertionSort byAbsWeightDesc (sliderWeightsOf sv)) :=
    List.sorted_insertionSort byAbsWeightDesc (sliderWeightsOf sv)
  have hperm :
      List.Perm (List.insertionSort byAbsWeightDesc (sliderWeightsOf sv)) (sliderWeightsOf sv) :=
    List.perm_insertionSort byAbsWeightDesc (sliderWeightsOf sv)
  refine ⟨?_, ?_, ?_⟩
  · simp [List.length_take]
  · intro p hp s hs
    rw [← List.take_append_drop 3
      (List.insertionSort byAbsWeightDesc (sliderWeightsOf sv))] at hsort
    have := (List.pairwise_append.mp hsort).2.2 p hp s hs
    rw [byAbsWeightDesc, mathAbs_eq_abs, mathAbs_eq_abs] at this
    exact this
  · intro w hw
    have hmem : w ∈ List.insertionSort byAbsWeightDesc (sliderWeightsOf sv) := by
      rcases hw with h | h
      · exact List.mem_of_mem_take h
      · exact List.mem_of_mem_drop h
    have hmem2 : w ∈ sliderWeightsOf sv := hperm.mem_iff.mp hmem
    have := (List.mem_filter.mp hmem2).2
    rw [mathAbs_eq_abs] at this
    exact of_decide_eq_true this

/-- C5 witness: the cap holds at a concrete five-dial input. -/
theorem C5_witness :
    (resolveSliderConflicts
      [("a", 90), ("b", 10), ("c", 80), ("d", 20), ("e", 70)]).primary.length ≤ 3 :=
  (C5_resolve_primary_cap_and_ordering
    [("a", 90), ("b", 10), ("c", 80), ("d", 20), ("e", 70)]).1

/-- The dial map of end-to-end scenario A, in the order given. -/
def scenarioASliders : List (String × ℚ) :=
  [("formality", 80), ("conversational", 30), ("informativeness", 50),
   ("authoritativeness", 85)]

/-- The conflict resolution the code actually produces for scenario A. -/
def scenarioAResolution : ConflictResolution :=
  { primary := [⟨"authoritativeness", 7/8, "very high"⟩, ⟨"formality", 3/4, "very high"⟩,
                ⟨"conversational", -(1/2), "low"⟩]
    secondary := [] }

theorem scenarioA_resolution_eq :
    resolveSliderConflicts scenarioASliders = scenarioAResolution := by
  norm_num [scenarioASliders, scenarioAResolution, resolveSliderConflicts, sliderWeightsOf,
    normalizeSliderValue, mapWeightToInstruction, mathAbs, byAbsWeightDesc,
    List.insertionSort, List.orderedInsert]

/-- The payload assembled for scenario A (no guardrails). -/
def scenarioAPrompt : String :=
  generatePrompt "Thanks for the update" (resolveSliderConflicts scenarioASliders)
    { required := [], banned := [] }

set_option maxRecDepth 40000 in
/-- C2 counterexample: for scenario A the code puts all three surviving
dimensions into `primary` (only informativeness is filtered out), so
`secondary` is empty — not the claimed `{conversational: Low}` — and the
assembled payload contains no SECONDARY block; moreover the strong dials
map to "very high", not High. -/
theorem C2_counterexample :
    (resolveSliderConflicts scenarioASliders).secondary = [] ∧
    (resolveSliderConflicts scenarioASliders).primary.map
        (fun w => (w.dimension, w.instruction)) =
      [("authoritativeness", "very high"), ("formality", "very high"),
       ("conversational", "low")] ∧
    strHasSub scenarioAPrompt "SECONDARY TONE ADJUSTMENTS" = false := by
  refine ⟨?_, ?_, ?_⟩
  · rw [scenarioA_resolution_eq]
    rfl
  · rw [scenarioA_resolution_eq]
    rfl
  · unfold scenarioAPrompt
    rw [scenarioA_resolution_eq]
    decide

set_option maxRecDepth 40000 in
/-- C2 as the code actually behaves: primary holds authoritativeness
(very high), formality (very high) and conversational (low) in that order,
secondary is empty, and the payload contains a PRIMARY block, no SECONDARY
block and no guardrail blocks. -/
theorem C2_amended_scenarioA :
    resolveSliderConflicts scenarioASliders = scenarioAResolution ∧
    scenarioAResolution.secondary = [] ∧
    strHasSub scenarioAPrompt "PRIMARY TONE INSTRUCTIONS" = true ∧
    strHasSub scenarioAPrompt "SECONDARY TONE ADJUSTMENTS" = false ∧
    strHasSub scenarioAPrompt "REQUIRED WORDS/PHRASES" = false ∧
    strHasSub scenarioAPrompt "BANNED WORDS/PHRASES" = false := by
  refine ⟨scenarioA_resolution_eq, rfl, ?_, ?_, ?_, ?_⟩ <;>
    (unfold scenarioAPrompt; rw [scenarioA_resolution_eq]; decide)

/-- Usage record of an enterprise user whose accumulated cost has reached
the monthly budget cap. -/
def usageAtBudgetCap : UserUsage :=
  { userId := "u1", monthYear := "2025-01", rewritesCount := 0, tokensUsed := 0,
    costUSD := 500, tier := .enterprise }

/-- A fresh (all-zero) usage record for a free-tier user. -/
def freshFreeUsage : UserUsage :=
  { userId := "u1", monthYear := "2025-01", rewritesCount := 0, tokensUsed := 0,
    costUSD := 0, tier := .free }

/-- A fresh (all-zero) usage record for an enterprise user. -/
def freshEnterpriseUsage : UserUsage :=
  { userId := "u1", monthYear := "2025-01", rewritesCount := 0, tokensUsed := 0,
    costUSD := 0, tier := .enterprise }

/-- C10 counterexample: gpt-4-turbo is in the enterprise allowed-model set
yet absent from the price table, and an enterprise user whose accumulated
cost (from priced models) has reached the 500-dollar cap IS denied on
budget grounds when requesting it — so "can never be denied on budget
grounds" fails as stated. -/
theorem C10_counterexample :
    MODEL_PRICING "gpt-4-turbo" = none ∧
    "gpt-4-turbo" ∈ (TIER_LIMITS Tier.enterprise).modelAccess ∧
    checkQuota "gpt-4-turbo" usageAtBudgetCap =
      { canProceed := false, reason := some QuotaDenyReason.budgetLimit } := by
  refine ⟨rfl, by decide, ?_⟩
  have hmem : "gpt-4-turbo" ∈ (TIER_LIMITS usageAtBudgetCap.tier).modelAccess := by decide
  have hcost : usageAtBudgetCap.costUSD ≥ (TIER_LIMITS usageAtBudgetCap.tier).monthlyBudgetUSD := by
    norm_num [usageAtBudgetCap, TIER_LIMITS]
  unfold checkQuota
  rw [if_neg (by simpa using hmem), if_neg (by norm_num [usageAtBudgetCap, TIER_LIMITS]),
    if_pos hcost]

/-- C10 amended: models absent from the price table cost exactly 0 in both
the pre-check estimate and the recorded cost, so they add nothing to the
accumulated cost; such a request is denied on budget grounds only when the
accumulated cost (necessarily from priced models) has already reached the
budget cap — with accumulated cost below the cap, no budget-based denial
occurs. -/
theorem C10_unpriced_model_costs_zero (model : String) (usage : UserUsage)
    (hp : MODEL_PRICING model = none) :
    (∀ tokens : ℚ, estimateRequestCost model tokens = 0) ∧
    (∀ (total : ℕ) (inp out : Option ℕ), calculateCost model total inp out = 0) ∧
    (∀ (total : ℕ) (inp out : Option ℕ),
      (recordUsage model total inp out usage).costUSD = usage.costUSD) ∧
    (usage.costUSD < (TIER_LIMITS usage.tier).monthlyBudgetUSD →
      (checkQuota model usage).reason ≠ some QuotaDenyReason.budgetLimit ∧
      (checkQuota model usage).reason ≠ some QuotaDenyReason.budgetEstimate) := by
  have hest : ∀ tokens : ℚ, estimateRequestCost model tokens = 0 := by
    intro t
    unfold estimateRequestCost
    rw [hp]
  have hcalc : ∀ (total : ℕ) (inp out : Option ℕ), calculateCost model total inp out = 0 := by
    intro t i o
    unfold calculateCost
    rw [hp]
  refine ⟨hest, hcalc, ?_, ?_⟩
  · intro t i o
    unfold recordUsage
    rw [hcalc t i o]
    simp
  · intro hlt
    unfold checkQuota
    dsimp only
    have hc3 : ¬ usage.costUSD ≥ (TIER_LIMITS usage.tier).monthlyBudgetUSD := not_le.mpr hlt
    have hc4 : ¬ usage.costUSD + estimateRequestCost model 2000 >
        (TIER_LIMITS usage.tier).monthlyBudgetUSD := by
      rw [hest 2000, add_zero]
      exact not_lt.mpr (le_of_lt hlt)
    rw [if_neg hc3, if_neg hc4]
    split_ifs <;> simp

/-- C10 witness: the amended statement at gpt-4-turbo for a fresh
enterprise user. -/
theorem C10_witness :
    estimateRequestCost "gpt-4-turbo" 2000 = 0 ∧
    (checkQuota "gpt-4-turbo" freshEnterpriseUsage).reason ≠
      some QuotaDenyReason.budgetLimit :=
  ⟨(C10_unpriced_model_costs_zero "gpt-4-turbo" freshEnterpriseUsage rfl).1 2000,
   ((C10_unpriced_model_costs_zero "gpt-4-turbo" freshEnterpriseUsage rfl).2.2.2
     (by norm_num [freshEnterpriseUsage, TIER_LIMITS])).1⟩

/-- C1: when the cache misses and `checkQuota` denies (its `canProceed`
field is false), the handler nevertheless does NOT return the quota
rejection: it calls the provider at least once, records usage, and writes
the cache, because the route tests the truthiness of the whole result
object instead of its `canProceed` field. -/
theorem C1_quota_denial_not_enforced (req : RewriteRequest) (env : PipelineEnv)
    (hmiss : env.cached = none)
    (hdeny : (checkQuota (modelOrDefault req) env.usage).canProceed = false) :
    (handleRewrite req env).outcome ≠ PipelineOutcome.quotaRejected ∧
    1 ≤ (handleRewrite req env).providerCalls ∧
    (handleRewrite req env).usageRecorded = [(modelOrDefault req, env.llm1.tokensUsed)] ∧
    (handleRewrite req env).cacheWrites ≠ [] := by
  refine ⟨?_, ?_, ?_, ?_⟩ <;>
    simp [handleRewrite, hmiss, quotaResultObjectTruthy] <;> split_ifs <;> simp

/-- Request from a free-tier user for gpt-4, which the free tier's model
set does not allow. -/
def reqGpt4Free : RewriteRequest :=
  { originalText := "hello", sliderValues := [], guardrails := { required := [], banned := [] }
    model := some "gpt-4", userId := some "u1" }

/-- Environment for `reqGpt4Free`: cache miss, fresh free-tier usage. -/
def envDenied : PipelineEnv :=
  { cached := none, usage := freshFreeUsage, llm1 := ⟨"out", 50⟩, llm2 := ⟨"out2", 60⟩
    elapsed := 3 }

/-- C1 witness: the concrete denied request still goes through. -/
theorem C1_witness :
    (checkQuota (modelOrDefault reqGpt4Free) envDenied.usage).canProceed = false ∧
    (handleRewrite reqGpt4Free envDenied).outcome ≠ PipelineOutcome.quotaRejected ∧
    (handleRewrite reqGpt4Free envDenied).usageRecorded = [(modelOrDefault reqGpt4Free, 50)] :=
  have hdeny : (checkQuota (modelOrDefault reqGpt4Free) envDenied.usage).canProceed = false := by
    decide
  have h := C1_quota_denial_not_enforced reqGpt4Free envDenied rfl hdeny
  ⟨hdeny, h.1, h.2.2.1⟩

/-- C3 amended: on every cache miss the usage recorded is exactly one call
with the FIRST provider response's token count — the retry's tokens are
never recorded, even when the retry ran and even when the retry's text is
the one returned. -/
theorem C3_amended_first_attempt_only (req : RewriteRequest) (env : PipelineEnv)
    (hmiss : env.cached = none) :
    (handleRewrite req env).usageRecorded = [(modelOrDefault req, env.llm1.tokensUsed)] := by
  simp [handleRewrite, hmiss, quotaResultObjectTruthy]

/-- Request whose guardrails ban the term "foo". -/
def reqWithBannedTerm : RewriteRequest :=
  { originalText := "hello team", sliderValues := []
    guardrails := { required := [], banned := ["foo"] }, model := none, userId := none }

/-- Environment where the first provider response violates the ban (so the
retry fires) and the retry response is clean: two provider calls run, with
50 and 70 tokens respectively. -/
def envRetryScenario : PipelineEnv :=
  { cached := none, usage := freshFreeUsage, llm1 := ⟨"foo bar", 50⟩
    llm2 := ⟨"clean text", 70⟩, elapsed := 5 }

/-- C3 counterexample: both attempts run (two provider calls), but the
recorded token total is the first attempt's 50, not the 120 tokens the two
attempts actually cost. -/
theorem C3_counterexample :
    (handleRewrite reqWithBannedTerm envRetryScenario).providerCalls = 2 ∧
    ((handleRewrite reqWithBannedTerm envRetryScenario).usageRecorded.map
        (fun p => p.2)).sum = 50 ∧
    envRetryScenario.llm1.tokensUsed + envRetryScenario.llm2.tokensUsed = 120 ∧
    ((handleRewrite reqWithBannedTerm envRetryScenario).usageRecorded.map
        (fun p => p.2)).sum ≠
      envRetryScenario.llm1.tokensUsed + envRetryScenario.llm2.tokensUsed := by
  decide

/-- C3 witness: the amended statement at the concrete retry scenario. -/
theorem C3_witness :
    (handleRewrite reqWithBannedTerm envRetryScenario).usageRecorded =
      [(modelOrDefault reqWithBannedTerm, 50)] :=
  C3_amended_first_attempt_only reqWithBannedTerm envRetryScenario rfl

/-- C9: on a cache hit the handler returns the stored result with only
`processingTime` replaced by this request's elapsed wall time, and it
performs no quota check, no provider call, no usage recording, and no
cache write. -/
theorem C9_cache_hit_short_circuit (req : RewriteRequest) (env : PipelineEnv)
    (r : RewriteResponse) (hhit : env.cached = some r) :
    (handleRewrite req env).outcome =
      PipelineOutcome.success { r with processingTime := env.elapsed } ∧
    (handleRewrite req env).quotaChecked = false ∧
    (handleRewrite req env).providerCalls = 0 ∧
    (handleRewrite req env).usageRecorded = [] ∧
    (handleRewrite req env).cacheWrites = [] := by
  refine ⟨?_, ?_, ?_, ?_, ?_⟩ <;> simp [handleRewrite, hhit]

/-- A stored rewrite response used for the cache-hit witness. -/
def sampleResponse : RewriteResponse :=
  { rewrittenText := "cached text", originalText := "orig", model := "gpt-3.5-turbo"
    processingTime := 42, tokensUsed := 7, guardrailViolations := none }

/-- A simple request used for the cache-hit witness. -/
def reqSimple : RewriteRequest :=
  { originalText := "orig", sliderValues := [], guardrails := { required := [], banned := [] }
    model := none, userId := none }

/-- Environment whose cache lookup hits with `sampleResponse`. -/
def envCacheHit : PipelineEnv :=
  { cached := some sampleResponse, usage := freshFreeUsage, llm1 := ⟨"a", 1⟩
    llm2 := ⟨"b", 2⟩, elapsed := 9 }

/-- C9 witness: the concrete cache hit. -/
theorem C9_witness :
    (handleRewrite reqSimple envCacheHit).outcome =
      PipelineOutcome.success { sampleResponse with processingTime := 9 } ∧
    (handleRewrite reqSimple envCacheHit).quotaChecked = false :=
  have h := C9_cache_hit_short_circuit reqSimple envCacheHit sampleResponse rfl
  ⟨h.1, h.2.1⟩

/-- C8 counterexample: (i) at the instant exactly `ttl` seconds after
insertion (600 s = 600000 ms here) `get` still returns the value, because
the source's expiry check is strict (`Date.now() > entry.expiry`), so
"once ttl seconds have elapsed, get returns absent" fails at the boundary;
(ii) the claim quantifies over every ttl, but with a negative ttl the
immediate round-trip already fails. -/
theorem C8_counterexample :
    (cacheGet (cacheSet (emptyCache ℕ) 0 "k" 42 600) 600000 "k").1 = some 42 ∧
    (cacheGet (cacheSet (emptyCache ℕ) 0 "k" 42 (-1)) 0 "k").1 = none := by
  constructor
  · simp [cacheGet, cacheSet, emptyCache]
  · simp [cacheGet, cacheSet, emptyCache]

/-- C8 amended: for non-negative ttl, `set` followed immediately by `get`
at the same timestamp returns the value; once STRICTLY more than ttl
seconds have elapsed, `get` returns absent; and no entry is ever returned
strictly past its expiry timestamp. -/
theorem C8_cache_roundtrip_and_expiry {α : Type} (store : CacheStore α) (now : ℤ)
    (k : String) (v : α) (ttl : ℤ) (httl : 0 ≤ ttl) (t : ℤ) :
    (cacheGet (cacheSet store now k v ttl) now k).1 = some v ∧
    (now + ttl * 1000 < t → (cacheGet (cacheSet store now k v ttl) t k).1 = none) ∧
    (∀ e : CacheEntry α, store k = some e → e.expiry < t → (cacheGet store t k).1 = none) := by
  have hset : cacheSet store now k v ttl k = some ⟨v, now + ttl * 1000⟩ := by
    simp [cacheSet]
  refine ⟨?_, ?_, ?_⟩
  · unfold cacheGet
    rw [hset]
    have hne : ¬ now > now + ttl * 1000 := by nlinarith
    simp [hne]
  · intro ht
    unfold cacheGet
    rw [hset]
    simp only
    rw [if_pos ht]
  · intro e he hexp
    unfold cacheGet
    rw [he]
    simp only
    rw [if_pos hexp]

/-- C8 witness: the amended statement at a concrete store and times. -/
theorem C8_witness :
    (cacheGet (cacheSet (emptyCache ℕ) 0 "k" 42 600) 0 "k").1 = some 42 ∧
    (cacheGet (cacheSet (emptyCache ℕ) 0 "k" 42 600) 600001 "k").1 = none :=
  have h := C8_cache_roundtrip_and_expiry (emptyCache ℕ) 0 "k" 42 600 (by norm_num) 600001
  ⟨h.1, h.2.1 (by norm_num)⟩

theorem sortStrings_perm (l : List String) : List.Perm (sortStrings l) l :=
  List.perm_insertionSort strLe l

theorem sortStrings_eq_of_perm {l1 l2 : List String} (h : List.Perm l1 l2) :
    sortStrings l1 = sortStrings l2 :=
  List.eq_of_perm_of_sorted (((sortStrings_perm l1).trans h).trans (sortStrings_perm l2).symm)
    (List.sorted_insertionSort strLe l1) (List.sorted_insertionSort strLe l2)

theorem map_eq_imp_pointwise {α β : Type} (f g : α → β) :
    ∀ (l : List α), l.map f = l.map g → ∀ x ∈ l, f x = g x := by
  intro l
  induction l with
  | nil =>
    intro _ x hx
    exact absurd hx (List.not_mem_nil x)
  | cons a as ih =>
    intro h x hx
    rw [List.map_cons, List.map_cons] at h
    injection h with h1 h2
    rcases List.mem_cons.mp hx with rfl | hx2
    · exact h1
    · exact ih h2 x hx2

theorem lookupVal_eq_none {l : List (String × ℚ)} {k : String}
    (h : k ∉ l.map (fun p => p.1)) : lookupVal l k = none := by
  unfold lookupVal
  have hf : l.find? (fun p => p.1 == k) = none :=
    List.find?_eq_none.mpr (fun x hx hpx => h (List.mem_map.mpr ⟨x, hx, eq_of_beq hpx⟩))
  rw [hf]
  rfl

/-- C4 amended: two requests produce the same cache key exactly when their
texts agree after trim and lowercasing, their dial maps have the same key
multiset and the same value at every key, their guardrail term LISTS agree
as multisets (order collapses, but duplicates do NOT: the source sorts the
copied lists without deduplicating), and their effective model (after
defaulting) agrees. In particular every semantic difference in any field
changes the key, and ordering differences never do. -/
theorem C4_cache_key_characterization (r1 r2 : RewriteRequest) :
    generateCacheKey r1 = generateCacheKey r2 ↔
      (jsToLower (jsTrim r1.originalText) = jsToLower (jsTrim r2.originalText) ∧
       List.Perm (r1.sliderValues.map (fun p => p.1)) (r2.sliderValues.map (fun p => p.1)) ∧
       (∀ k, lookupVal r1.sliderValues k = lookupVal r2.sliderValues k) ∧
       List.Perm r1.guardrails.required r2.guardrails.required ∧
       List.Perm r1.guardrails.banned r2.guardrails.banned ∧
       modelOrDefault r1 = modelOrDefault r2) := by
  constructor
  · intro hk
    simp only [generateCacheKey, CacheKeyObject.mk.injEq] at hk
    obtain ⟨htext, hsliders, hreq, hban, hmodel⟩ := hk
    have hkeys : sortStrings (r1.sliderValues.map (fun p => p.1)) =
        sortStrings (r2.sliderValues.map (fun p => p.1)) := by
      have hmap := congrArg (List.map (fun q : String × Option ℚ => q.1)) hsliders
      simpa [List.map_map, Function.comp_def] using hmap
    have hkperm : List.Perm (r1.sliderValues.map (fun p => p.1))
        (r2.sliderValues.map (fun p => p.1)) := by
      have p1 := (sortStrings_perm (r1.sliderValues.map (fun p => p.1))).symm
      rw [hkeys] at p1
      exact p1.trans (sortStrings_perm _)
    refine ⟨htext, hkperm, ?_, ?_, ?_, hmodel⟩
    · intro k
      by_cases hmem : k ∈ r1.sliderValues.map (fun p => p.1)
      · have hmem2 : k ∈ sortStrings (r1.sliderValues.map (fun p => p.1)) :=
          (sortStrings_perm _).mem_iff.mpr hmem
        rw [← hkeys] at hsliders
        have hpt := map_eq_imp_pointwise
          (fun k => (k, lookupVal r1.sliderValues k))
          (fun k => (k, lookupVal r2.sliderValues k))
          (sortStrings (r1.sliderValues.map (fun p => p.1))) hsliders k hmem2
        exact congrArg Prod.snd hpt
      · have hmem2 : k ∉ r2.sliderValues.map (fun p => p.1) := fun hc =>
          hmem (hkperm.mem_iff.mpr hc)
        rw [lookupVal_eq_none hmem, lookupVal_eq_none hmem2]
    · have p1 := (sortStrings_perm r1.guardrails.required).symm
      rw [hreq] at p1
      exact p1.trans (sortStrings_perm _)
    · have p1 := (sortStrings_perm r1.guardrails.banned).symm
      rw [hban] at p1
      exact p1.trans (sortStrings_perm _)
  · rintro ⟨htext, hkperm, hlook, hreq, hban, hmodel⟩
    simp only [generateCacheKey, CacheKeyObject.mk.injEq]
    have hkeys : sortStrings (r1.sliderValues.map (fun p => p.1)) =
        sortStrings (r2.sliderValues.map (fun p => p.1)) := sortStrings_eq_of_perm hkperm
    refine ⟨htext, ?_, sortStrings_eq_of_perm hreq, sortStrings_eq_of_perm hban, hmodel⟩
    rw [← hkeys]
    exact List.map_congr_left (fun k _ => by rw [hlook k])

/-- Request with the required term "x" listed twice. -/
def reqDupTermA : RewriteRequest :=
  { originalText := "hi", sliderValues := []
    guardrails := { required := ["x", "x"], banned := [] }, model := none, userId := none }

/-- The same request with the duplicate collapsed. -/
def reqDupTermB : RewriteRequest :=
  { originalText := "hi", sliderValues := []
    guardrails := { required := ["x"], banned := [] }, model := none, userId := none }

/-- C4 counterexample: two requests identical in every field except that
one lists the required term "x" twice — the same SET of guardrail terms —
get different cache keys, because the source sorts the term lists without
collapsing duplicates. -/
theorem C4_counterexample :
    reqDupTermA.originalText = reqDupTermB.originalText ∧
    reqDupTermA.sliderValues = reqDupTermB.sliderValues ∧
    reqDupTermA.guardrails.banned = reqDupTermB.guardrails.banned ∧
    reqDupTermA.model = reqDupTermB.model ∧
    (∀ t, t ∈ reqDupTermA.guardrails.required ↔ t ∈ reqDupTermB.guardrails.required) ∧
    generateCacheKey reqDupTermA ≠ generateCacheKey reqDupTermB := by
  refine ⟨rfl, rfl, rfl, rfl, ?_, ?_⟩
  · intro t
    simp [reqDupTermA, reqDupTermB]
  · decide

/-- C6 witness: the boundary instance through the threshold theorem. -/
theorem C6_witness : mapWeightToInstruction (1/10) = "moderate" :=
  C6_bucket_thresholds.1 (1/10)
    (by rw [abs_of_pos (show (0:ℚ) < 1/10 by norm_num)]; norm_num)

/-- C7 witness: monotonicity at a concrete pair of dial values. -/
theorem C7_witness : normalizeSliderValue 30 ≤ normalizeSliderValue 70 :=
  C7_normalize_monotone_and_bounds.1 30 70 (by norm_num)
